import Mathlib

/-!
Shallow embedding of `src/ag2_integration/strategy_agent.py`
(class `StrategyConsultingAgent`).

Modelling conventions:
* Python strings are Lean `String`; character-level operations
  (lowercasing, substring containment, stripping) are implemented
  concretely over `String.data : List Char`, restricted to the ASCII
  behaviour that the source relies on.
* Calls into the external Python `re` library (regular-expression
  search, findall, split) are not repository code; their results enter
  the model through an `ReOracle` parameter, exactly at the call sites
  where the source invokes `re`.  All repository-side logic around
  those calls (pattern order, stripping, defaults, branching) is
  concrete.
* The HTTP layer (`requests`) is likewise external: an attempt oracle
  `Nat → Outcome β` gives the outcome of each POST attempt, and
  `make_request` is the literal translation of the retry loop in
  `_make_request`, recording the attempts made and the sleeps
  performed.
* `uuid.uuid4()` and `datetime.now()` are external sources of
  randomness/time and are passed in as parameters.
-/

namespace StrategyAgent

/-- ASCII lowercasing of one character, the behaviour of Python
`str.lower` on the ASCII inputs used here. -/
def pyLowerChar (c : Char) : Char :=
  if 'A' ≤ c ∧ c ≤ 'Z' then Char.ofNat (c.toNat + 32) else c

/-- ASCII uppercasing of one character (Python `str.upper`). -/
def pyUpperChar (c : Char) : Char :=
  if 'a' ≤ c ∧ c ≤ 'z' then Char.ofNat (c.toNat - 32) else c

/-- Python `text.lower()` (ASCII fragment). -/
def pyLowerStr (s : String) : String :=
  String.mk (s.data.map pyLowerChar)

/-- Python `text.upper()` (ASCII fragment). -/
def pyUpperStr (s : String) : String :=
  String.mk (s.data.map pyUpperChar)

/-- Substring containment on character lists: does `needle` occur as a
contiguous infix of `hay`?  This is the semantics of Python
`needle in hay` on strings. -/
def hasInfix (hay needle : List Char) : Bool :=
  match hay with
  | [] => needle.isEmpty
  | c :: t => needle.isPrefixOf (c :: t) || hasInfix t needle

/-- Python `needle in hay` for strings. -/
def pyContains (hay needle : String) : Bool :=
  hasInfix hay.data needle.data

/-- Python whitespace test used by `str.strip()` / `str.title()`. -/
def isPySpace (c : Char) : Bool :=
  c = ' ' || c = '\t' || c = '\n' || c = '\r' || c = '\x0b' || c = '\x0c'

/-- Python `s.strip()`: remove leading and trailing whitespace. -/
def pyStrip (s : String) : String :=
  String.mk (((s.data.dropWhile isPySpace).reverse.dropWhile isPySpace).reverse)

/-- ASCII alphabetic test, used by the `str.title()` model. -/
def isAsciiAlpha (c : Char) : Bool :=
  ('a' ≤ c ∧ c ≤ 'z') || ('A' ≤ c ∧ c ≤ 'Z')

/-- Helper for `pyTitle`: the Boolean records whether the previous
character was alphabetic (cased). -/
def titleAux : List Char → Bool → List Char
  | [], _ => []
  | c :: t, prevCased =>
      (if isAsciiAlpha c then
        (if prevCased then pyLowerChar c else pyUpperChar c)
      else c) :: titleAux t (isAsciiAlpha c)

/-- Python `s.title()` (ASCII fragment): uppercase each letter that
follows a non-letter, lowercase the rest. -/
def pyTitle (s : String) : String :=
  String.mk (titleAux s.data false)

/-- Python `s.rstrip(\x27/\x27)` as used on the service URL. -/
def rstripSlashes (s : String) : String :=
  String.mk ((s.data.reverse.dropWhile (fun c => c = '/')).reverse)

/-- Render an optional string the way a Python f-string renders a
possibly-`None` value. -/
def pyOptStr : Option String → String
  | none => "None"
  | some s => s

/-!
## External regular-expression interface

`_extract_company_name`, `_extract_industry` and `_extract_competitors`
call `re.search(pattern, text, re.IGNORECASE)` (and `re.findall` /
`re.split`).  `re` is the Python standard library, external to this
repository, so its results are supplied by an oracle.  `search p t`
models `re.search(p, t, re.IGNORECASE)` returning `group(1)` of the
match (or `none` when there is no match); `findallQuoted t` models
`re.findall(r..., t)` for the quoted-name pattern; `splitCompetitors s`
models `re.split` on the competitor-delimiter pattern.
-/

structure ReOracle where
  search : String → String → Option String
  findallQuoted : String → List String
  splitCompetitors : String → List String

/-- First pattern in the list whose `re.search` succeeds, returning its
captured group (the shape of the `for pattern in patterns` loops). -/
def searchFirst (os : ReOracle) (pats : List String) (text : String) : Option String :=
  match pats with
  | [] => none
  | p :: rest =>
      match os.search p text with
      | some g => some g
      | none => searchFirst os rest text

/-- The four company-name patterns of `_extract_company_name`
(lines 206-211), in source order. -/
def company_patterns : List String :=
  ["analyze\\s+([A-Z][A-Za-z0-9\\s&]+?)(?:\\s+using|\\s+with|\\.|,|$)",
   "(?:SWOT|analysis|evaluate)\\s+(?:for|of)\\s+([A-Z][A-Za-z0-9\\s&]+?)(?:\\s+using|\\.|,|$)",
   "company\\s+([A-Z][A-Za-z0-9\\s&]+?)(?:\\s+in|\\.|,|$)",
   "^\\s*([A-Z][A-Za-z0-9\\s&]+?)\\s+(?:SWOT|analysis|strategy)"]

/-- `_extract_company_name` (lines 200-223): first matching pattern
wins and its group is stripped; otherwise the first double-quoted
substring; otherwise `None`. -/
def extract_company_name (os : ReOracle) (text : String) : Option String :=
  match searchFirst os company_patterns text with
  | some g => some (pyStrip g)
  | none =>
      match os.findallQuoted text with
      | q :: _ => some q
      | [] => none

/-- `_extract_depth` (lines 225-232). -/
def extract_depth (text : String) : String :=
  if pyContains (pyLowerStr text) "comprehensive"
      || pyContains (pyLowerStr text) "detailed"
      || pyContains (pyLowerStr text) "thorough" then "comprehensive"
  else if pyContains (pyLowerStr text) "quick"
      || pyContains (pyLowerStr text) "brief"
      || pyContains (pyLowerStr text) "summary" then "quick"
  else "standard"

/-- The three industry patterns of `_extract_industry`
(lines 239-243), in source order. -/
def industry_patterns : List String :=
  ["(?:industry|sector):\\s*([^,\\n]+)",
   "in\\s+the\\s+([^,\\n]+?)\\s+(?:industry|sector|market)",
   "([^,\\n]+?)\\s+market\\s+entry"]

/-- `_extract_industry` (lines 234-250): first matching pattern,
stripped; `technology` as the default fallback. -/
def extract_industry (os : ReOracle) (text : String) : String :=
  match searchFirst os industry_patterns text with
  | some g => pyStrip g
  | none => "technology"

/-- The fixed region list of `_extract_region` (line 255). -/
def regions : List String :=
  ["europe", "asia", "north america", "south america", "africa",
   "middle east", "global"]

/-- `_extract_region` (lines 252-262): first region that occurs in the
lowercased text, title-cased; `Global` as the default fallback. -/
def extract_region (text : String) : String :=
  match regions.find? (fun r => pyContains (pyLowerStr text) r) with
  | some r => pyTitle r
  | none => "Global"

/-- The three competitor patterns of `_extract_competitors`
(lines 270-274), in source order. -/
def competitor_patterns : List String :=
  ["(?:versus|vs\\.?|against)\\s+([^\\.]+)",
   "competitors?:\\s*([^\\.]+)",
   "compete\\s+with\\s+([^\\.]+)"]

/-- `_extract_competitors` (lines 264-284): split the first match on
the delimiter pattern, strip every piece, keep the nonempty ones. -/
def extract_competitors (os : ReOracle) (text : String) : List String :=
  match searchFirst os competitor_patterns text with
  | some g =>
      ((os.splitCompetitors g).map pyStrip).filter (fun c => ¬ c = "")
  | none => []

/-!
## The task classifier
-/

/-- A task descriptor, the dictionary built by
`_parse_message_for_task`.  Each Python dict key becomes an optional
field; a key that a given variant does not set stays `none` (the code
only ever reads keys with `.get`, which treats an absent key and a
`None` value alike). -/
structure Task where
  type : String
  company : Option String := none
  framework : Option String := none
  depth : Option String := none
  industry : Option String := none
  region : Option String := none
  competitors : Option (List String) := none
deriving Repr, DecidableEq

/-- Keyword list of the SWOT rule (line 150). -/
def swot_keywords : List String :=
  ["swot", "strengths", "weaknesses", "opportunities", "threats"]

/-- Keyword list of the Porters-Five-Forces rule (line 161). -/
def porter_keywords : List String :=
  ["porter", "five forces", "competitive forces", "industry analysis"]

/-- Keyword list of the market-entry rule (line 172). -/
def market_keywords : List String :=
  ["market entry", "enter market", "expand into", "market expansion"]

/-- Keyword list of the competitive-analysis rule (line 181). -/
def competitive_keywords : List String :=
  ["competitive analysis", "competitor analysis", "competition",
   "versus", "vs"]

/-- Python `any(keyword in text_lower for keyword in kws)`. -/
def hasAnyKeyword (text_lower : String) (kws : List String) : Bool :=
  kws.any (fun k => pyContains text_lower k)

/-- `_parse_message_for_task` (lines 128-198), on the text already
extracted from the message list (the list-to-text preprocessing of
lines 134-142 is not part of any claim).  The lowercased text is
written inline where the source binds `text_lower`. -/
def parse_message_for_task (os : ReOracle) (text : String) : Option Task :=
  if hasAnyKeyword (pyLowerStr text) swot_keywords then
    match extract_company_name os text with
    | some company =>
        some { type := "swot", company := some company,
               framework := some "swot",
               depth := some (extract_depth text) }
    | none => none
  else if hasAnyKeyword (pyLowerStr text) porter_keywords then
    match extract_company_name os text with
    | some company =>
        some { type := "analyze", company := some company,
               framework := some "porters-five-forces",
               depth := some (extract_depth text) }
    | none => none
  else if hasAnyKeyword (pyLowerStr text) market_keywords then
    some { type := "market_entry",
           industry := some (extract_industry os text),
           region := some (extract_region text),
           company := extract_company_name os text }
  else if hasAnyKeyword (pyLowerStr text) competitive_keywords then
    some { type := "competitive",
           company := extract_company_name os text,
           competitors := some (extract_competitors os text) }
  else if pyContains (pyLowerStr text) "analyze"
      && (extract_company_name os text).isSome then
    some { type := "analyze",
           company := extract_company_name os text,
           framework := some "swot",
           depth := some (extract_depth text) }
  else none

/-!
## The service client
-/

/-- The client state set up by `__init__` (lines 45-79): the fields of
`self` that the service-interaction methods read.  None of the methods
ever assigns to these fields after construction, so the embedding
passes the record unchanged to every operation. -/
structure Client where
  service_url : String
  timeout : Nat
  session_id : String
deriving Repr, DecidableEq

/-- `__init__` (lines 45-79), restricted to the modelled state:
`service_url.rstrip` of the slash, the timeout, and the session
identifier `str(uuid.uuid4())`.  The uuid is external randomness and is
passed in as the `uuid` argument; it is consumed exactly here. -/
def init_client (service_url : String) (timeout : Nat) (uuid : String) : Client :=
  { service_url := rstripSlashes service_url, timeout := timeout,
    session_id := uuid }

/-- A JSON value as it appears in the request bodies: a string, `null`
(a Python `None` field), or an array of strings. -/
inductive JVal where
  | jnull
  | jstr (s : String)
  | jarr (a : List String)
deriving Repr, DecidableEq

/-- Serialize an optional string field of the body. -/
def optJ : Option String → JVal
  | none => JVal.jnull
  | some s => JVal.jstr s

/-- An outbound POST request: the endpoint URL and the JSON body, as
handed to `_make_request`. -/
structure Request where
  endpoint : String
  body : List (String × JVal)
deriving Repr, DecidableEq

/-- `analyze_company` (lines 386-411): the endpoint and data dict it
builds and passes to `_make_request`.  The company argument is optional
because `_execute_task` passes the company key of the task dict, which
can be `None`. -/
def analyze_company (c : Client) (company : Option String)
    (framework depth : String) : Request :=
  { endpoint := c.service_url ++ "/api/analyze",
    body := [("company", optJ company), ("framework", JVal.jstr framework),
             ("depth", JVal.jstr depth), ("sessionId", JVal.jstr c.session_id)] }

/-- `analyze_market_entry` (lines 413-438): endpoint and data dict. -/
def analyze_market_entry (c : Client) (industry region company : Option String) :
    Request :=
  { endpoint := c.service_url ++ "/api/market-entry",
    body := [("industry", optJ industry), ("region", optJ region),
             ("company", optJ company), ("sessionId", JVal.jstr c.session_id)] }

/-- `analyze_competitive` (lines 440-462): endpoint and data dict. -/
def analyze_competitive (c : Client) (company : Option String)
    (competitors : List String) : Request :=
  { endpoint := c.service_url ++ "/api/competitive",
    body := [("company", optJ company), ("competitors", JVal.jarr competitors),
             ("sessionId", JVal.jstr c.session_id)] }

/-- `_execute_task` (lines 286-319): dispatch on the type key of the
task dict to one of the three service methods.  The value is the request those
methods construct and pass to `_make_request`; `none` models the
`return None` for an unrecognized type. -/
def execute_task (c : Client) (task : Task) : Option Request :=
  if task.type = "analyze" ∨ task.type = "swot" then
    some (analyze_company c task.company (task.framework.getD "swot")
      (task.depth.getD "standard"))
  else if task.type = "market_entry" then
    some (analyze_market_entry c task.industry task.region task.company)
  else if task.type = "competitive" then
    some (analyze_competitive c task.company (task.competitors.getD []))
  else none

/-!
## The retry loop of `_make_request`
-/

/-- Outcome of one POST attempt, as seen by the `try` block of
`_make_request`: an HTTP response with a status code and (when the code
is 200) a parseable body, a `requests.exceptions.Timeout`, a
`requests.exceptions.ConnectionError`, or any other exception. -/
inductive Outcome (β : Type) where
  | response (code : Nat) (body : β)
  | timeout
  | connError
  | otherError
deriving Repr, DecidableEq

/-- Line 470. -/
def max_retries : Nat := 3

/-- Line 471. -/
def retry_delay : Nat := 1

/-- The trace of one `_make_request` call: how many POST attempts were
made, which sleep durations (in seconds) were performed between
attempts, and the returned value (`none` is Python `None`). -/
structure ReqTrace (β : Type) where
  attempts : Nat
  sleeps : List Nat
  result : Option β
deriving Repr, DecidableEq

/-- The body of the `for attempt in range(max_retries)` loop of
`_make_request` (lines 473-505), from loop index `attempt` with `fuel`
iterations left.  `oracle i` is the outcome of the POST of iteration
`i`.  Status 200 returns the body; status 503 sleeps
`retry_delay * (attempt + 1)` and retries unless this was the last
iteration; any other status returns `None` at once; a timeout retries
without sleeping unless this was the last iteration; a connection error
or any other exception returns `None` at once.  Exhausted fuel is the
`return None` after the loop. -/
def requestLoop {β : Type} (oracle : Nat → Outcome β) :
    Nat → Nat → ReqTrace β
  | _, 0 => ⟨0, [], none⟩
  | attempt, fuel + 1 =>
      match oracle attempt with
      | Outcome.response code body =>
          if code = 200 then ⟨1, [], some body⟩
          else if code = 503 then
            if attempt < max_retries - 1 then
              let t := requestLoop oracle (attempt + 1) fuel
              ⟨t.attempts + 1, retry_delay * (attempt + 1) :: t.sleeps, t.result⟩
            else ⟨1, [], none⟩
          else ⟨1, [], none⟩
      | Outcome.timeout =>
          if attempt < max_retries - 1 then
            let t := requestLoop oracle (attempt + 1) fuel
            ⟨t.attempts + 1, t.sleeps, t.result⟩
          else ⟨1, [], none⟩
      | Outcome.connError => ⟨1, [], none⟩
      | Outcome.otherError => ⟨1, [], none⟩

/-- `_make_request` (lines 464-505): run the loop from attempt 0 with
`max_retries` iterations available. -/
def make_request {β : Type} (oracle : Nat → Outcome β) : ReqTrace β :=
  requestLoop oracle 0 max_retries

/-- An attempt outcome on which `_make_request` returns `None`
immediately: an HTTP status other than 200 and 503, or a connection
error. -/
def badOutcome {β : Type} : Outcome β → Prop
  | Outcome.response code _ => ¬ code = 200 ∧ ¬ code = 503
  | Outcome.connError => True
  | _ => False

/-!
## The response formatter
-/

/-- The `analysis` value of a result when it is a dict: the four SWOT
category keys, each optionally present with a list of items. -/
structure SwotAnalysis where
  strengths : Option (List String) := none
  weaknesses : Option (List String) := none
  opportunities : Option (List String) := none
  threats : Option (List String) := none
deriving Repr, DecidableEq

/-- A result dict as `_format_response` reads it: the `framework` key
(optional), the `analysis` key (`some` when its value is a dict, which
also covers a missing key read as the default empty dict; `none` when
the value is not a dict, failing the `isinstance` test), and the
`recommendations` key read with default `[]`. -/
structure AnalysisResult where
  framework : Option String := none
  analysis : Option SwotAnalysis := none
  recommendations : List String := []
deriving Repr, DecidableEq

/-- One SWOT category block of `_format_response` (for example lines
351-355): when the key is present, a section header, the first five
items rendered as bullets, and a blank line. -/
def categoryLines (title : String) (items : Option (List String)) : List String :=
  match items with
  | none => []
  | some l => ("## " ++ title) :: (l.take 5).map (fun item => "- " ++ item) ++ [""]

/-- The recommendation block of `_format_response` (lines 376-380):
when the list is nonempty, a header and the first five items, numbered
from 1. -/
def recommendationLines (recs : List String) : List String :=
  if recs.isEmpty then []
  else "## Strategic Recommendations" ::
    (recs.take 5).enum.map (fun p => toString (p.1 + 1) ++ ". " ++ p.2)

/-- The lines appended by `_format_response` (lines 330-382) for a
truthy result: header by task type, date line (`today` stands for
`datetime.now().strftime`, an external clock value), the SWOT category
blocks when the framework is `swot` and the analysis value is a dict,
and the recommendation block. -/
def format_response_lines (res : AnalysisResult) (task : Task) (today : String) :
    List String :=
  (if task.type = "analyze" ∨ task.type = "swot" then
    ["# Strategic Analysis: " ++ pyOptStr task.company,
     "**Framework:** " ++ pyUpperStr (res.framework.getD "SWOT")]
  else if task.type = "market_entry" then
    ["# Market Entry Analysis",
     "**Industry:** " ++ pyOptStr task.industry,
     "**Region:** " ++ pyOptStr task.region]
  else if task.type = "competitive" then
    ["# Competitive Analysis: " ++ pyOptStr task.company]
  else [])
  ++ ["**Date:** " ++ today ++ "\n"]
  ++ (match res.analysis with
      | some a =>
          if res.framework = some "swot" then
            categoryLines "Strengths" a.strengths
              ++ categoryLines "Weaknesses" a.weaknesses
              ++ categoryLines "Opportunities" a.opportunities
              ++ categoryLines "Threats" a.threats
          else []
      | none => [])
  ++ recommendationLines res.recommendations

/-- `_format_response` (lines 321-382).  `none` stands for a falsy
`result` (`None` or an empty dict), which returns the fixed message of
line 328; otherwise the appended lines are joined with newlines. -/
def format_response (result : Option AnalysisResult) (task : Task)
    (today : String) : String :=
  match result with
  | none => "Analysis could not be completed."
  | some res => String.intercalate "\n" (format_response_lines res task today)

/-!
## Spec-side rule decomposition

The spec describes the classifier as an ordered rule list with
first-match-wins.  `firstMatchingRule` and `ruleOutcome` are that
spec-side reading, to be compared with `parse_message_for_task` (the
source-side translation above).
-/

/-- The five rules of the classifier, in the precedence order the spec
states: SWOT, Five Forces, market entry, competitive, generic analyze. -/
inductive RuleId where
  | swotRule
  | porterRule
  | marketRule
  | competitiveRule
  | analyzeRule
deriving Repr, DecidableEq

/-- Spec-side: the first rule whose keyword condition matches the
lowercased text, in precedence order, or `none` when no recognized
keyword occurs. -/
def firstMatchingRule (text : String) : Option RuleId :=
  if hasAnyKeyword (pyLowerStr text) swot_keywords then some RuleId.swotRule
  else if hasAnyKeyword (pyLowerStr text) porter_keywords then some RuleId.porterRule
  else if hasAnyKeyword (pyLowerStr text) market_keywords then some RuleId.marketRule
  else if hasAnyKeyword (pyLowerStr text) competitive_keywords then
    some RuleId.competitiveRule
  else if pyContains (pyLowerStr text) "analyze" then some RuleId.analyzeRule
  else none

/-- Spec-side: the task (or no task) produced by a given rule on the
text, independently of the other rules. -/
def ruleOutcome (os : ReOracle) (text : String) : Option RuleId → Option Task
  | none => none
  | some RuleId.swotRule =>
      match extract_company_name os text with
      | some company =>
          some { type := "swot", company := some company,
                 framework := some "swot",
                 depth := some (extract_depth text) }
      | none => none
  | some RuleId.porterRule =>
      match extract_company_name os text with
      | some company =>
          some { type := "analyze", company := some company,
                 framework := some "porters-five-forces",
                 depth := some (extract_depth text) }
      | none => none
  | some RuleId.marketRule =>
      some { type := "market_entry",
             industry := some (extract_industry os text),
             region := some (extract_region text),
             company := extract_company_name os text }
  | some RuleId.competitiveRule =>
      some { type := "competitive",
             company := extract_company_name os text,
             competitors := some (extract_competitors os text) }
  | some RuleId.analyzeRule =>
      if (extract_company_name os text).isSome then
        some { type := "analyze",
               company := extract_company_name os text,
               framework := some "swot",
               depth := some (extract_depth text) }
      else none

/-- Truncate a result to the first five entries of its recommendation
list and of each SWOT category list (the prefixes that the formatter
can render). -/
def truncate_result (res : AnalysisResult) : AnalysisResult :=
  { framework := res.framework,
    analysis := res.analysis.map (fun a =>
      { strengths := a.strengths.map (fun l => l.take 5),
        weaknesses := a.weaknesses.map (fun l => l.take 5),
        opportunities := a.opportunities.map (fun l => l.take 5),
        threats := a.threats.map (fun l => l.take 5) }),
    recommendations := res.recommendations.take 5 }

/-- Concrete oracle for evaluation: every regular-expression call
fails. -/
def osNone : ReOracle :=
  { search := fun _ _ => none, findallQuoted := fun _ => [],
    splitCompetitors := fun _ => [] }

/-- Concrete oracle for evaluation: every search captures the group
Tesla; no quoted names, no splitting. -/
def osTesla : ReOracle :=
  { search := fun _ _ => some "Tesla", findallQuoted := fun _ => [],
    splitCompetitors := fun _ => [] }

/-- Concrete result with six recommendations and six strengths, for
evaluating the formatter. -/
def sampleResult : AnalysisResult :=
  { framework := some "swot",
    analysis := some { strengths := some ["s1", "s2", "s3", "s4", "s5", "s6"] },
    recommendations := ["r1", "r2", "r3", "r4", "r5", "r6"] }

/-- Concrete task for evaluating the formatter. -/
def sampleTask : Task :=
  { type := "swot", company := some "Tesla", framework := some "swot",
    depth := some "standard" }

/-- The classifier equals the spec-side first-match-wins reading: the
first rule whose keyword condition matches fully determines the result,
and no later rule is consulted. -/
theorem parse_eq_ruleOutcome (os : ReOracle) (text : String) :
    parse_message_for_task os text = ruleOutcome os text (firstMatchingRule text) := by
  unfold parse_message_for_task firstMatchingRule
  cases h1 : hasAnyKeyword (pyLowerStr text) swot_keywords with
  | true => simp [h1, ruleOutcome]
  | false =>
  cases h2 : hasAnyKeyword (pyLowerStr text) porter_keywords with
  | true => simp [h1, h2, ruleOutcome]
  | false =>
  cases h3 : hasAnyKeyword (pyLowerStr text) market_keywords with
  | true => simp [h1, h2, h3, ruleOutcome]
  | false =>
  cases h4 : hasAnyKeyword (pyLowerStr text) competitive_keywords with
  | true => simp [h1, h2, h3, h4, ruleOutcome]
  | false =>
  cases h5 : pyContains (pyLowerStr text) "analyze" with
  | false => simp [h1, h2, h3, h4, h5, ruleOutcome]
  | true =>
  cases h6 : (extract_company_name os text).isSome with
  | true => simp [h1, h2, h3, h4, h5, h6, ruleOutcome]
  | false => simp [h1, h2, h3, h4, h5, h6, ruleOutcome]

/-- C1: for every input text the classifier evaluates its keyword rules
in the fixed order SWOT, Five Forces, market entry, competitive,
generic analyze; the first rule whose keyword condition matches
determines the result, and no later rule is consulted after a match. -/
theorem c1_first_match_wins (os : ReOracle) (text : String) :
    parse_message_for_task os text = ruleOutcome os text (firstMatchingRule text) :=
  parse_eq_ruleOutcome os text

/-- Witness for C1 on a concrete input and oracle. -/
theorem c1_first_match_wins_witness :
    parse_message_for_task osTesla "Please analyze Tesla" =
      ruleOutcome osTesla "Please analyze Tesla"
        (firstMatchingRule "Please analyze Tesla") :=
  c1_first_match_wins osTesla "Please analyze Tesla"

/-- C4: every input containing a SWOT keyword (case-insensitively)
from which a company name is extracted yields a task of type swot whose
framework field equals swot. -/
theorem c4_swot_yields_swot_framework (os : ReOracle) (text company : String)
    (hk : hasAnyKeyword (pyLowerStr text) swot_keywords = true)
    (hc : extract_company_name os text = some company) :
    parse_message_for_task os text =
      some { type := "swot", company := some company, framework := some "swot",
             depth := some (extract_depth text) } := by
  unfold parse_message_for_task
  simp [hk, hc]

/-- Witness for C4 on a concrete input and oracle. -/
theorem c4_swot_yields_swot_framework_witness :
    parse_message_for_task osTesla "Run a swot analysis of Tesla" =
      some { type := "swot", company := some "Tesla", framework := some "swot",
             depth := some (extract_depth "Run a swot analysis of Tesla") } :=
  c4_swot_yields_swot_framework osTesla "Run a swot analysis of Tesla" "Tesla"
    (by decide) (by decide)

/-- C5: the classifier yields no task exactly when no keyword rule
matches the input, or the first matching rule is company-scoped (SWOT,
Five Forces, or generic analyze) and company-name extraction fails; in
particular any input with no recognized keyword yields no task. -/
theorem c5_none_characterization (os : ReOracle) (text : String) :
    parse_message_for_task os text = none ↔
      (firstMatchingRule text = none ∨
        ((firstMatchingRule text = some RuleId.swotRule ∨
          firstMatchingRule text = some RuleId.porterRule ∨
          firstMatchingRule text = some RuleId.analyzeRule) ∧
         extract_company_name os text = none)) := by
  rw [parse_eq_ruleOutcome]
  cases hr : firstMatchingRule text with
  | none => simp [ruleOutcome]
  | some r =>
      cases r <;> simp [ruleOutcome] <;>
        cases h : extract_company_name os text <;> simp [h]

/-- Witness for C5 on a concrete keyword-free input. -/
theorem c5_none_characterization_witness :
    parse_message_for_task osNone "hello there" = none :=
  (c5_none_characterization osNone "hello there").mpr (Or.inl (by decide))

/-- C10: when the first matching rule is SWOT or Five Forces and
company-name extraction fails, the classifier returns no task, even
when market-entry or competitive keywords also occur in the input. -/
theorem c10_higher_rule_suppresses (os : ReOracle) (text : String)
    (hr : firstMatchingRule text = some RuleId.swotRule ∨
          firstMatchingRule text = some RuleId.porterRule)
    (hc : extract_company_name os text = none) :
    parse_message_for_task os text = none := by
  rw [parse_eq_ruleOutcome]
  rcases hr with h | h <;> simp [h, ruleOutcome, hc]

/-- Witness for C10 on an input that contains both a SWOT keyword and
a market-entry keyword, with failing extraction. -/
theorem c10_higher_rule_suppresses_witness :
    parse_message_for_task osNone "swot before market entry" = none :=
  c10_higher_rule_suppresses osNone "swot before market entry"
    (Or.inl (by decide)) (by decide)

/-- C2: when every POST attempt receives HTTP 503, the request makes
exactly 3 attempts, sleeps 1 then 2 time units between them, and
returns None. -/
theorem c2_all_503_three_attempts {β : Type} (oracle : Nat → Outcome β)
    (b : Nat → β) (h : ∀ i, i < 3 → oracle i = Outcome.response 503 (b i)) :
    make_request oracle = ⟨3, [1, 2], none⟩ := by
  have h0 := h 0 (by norm_num)
  have h1 := h 1 (by norm_num)
  have h2 := h 2 (by norm_num)
  simp [make_request, max_retries, retry_delay, requestLoop, h0, h1, h2]

/-- Witness for C2 with a concrete oracle that always answers 503. -/
theorem c2_all_503_three_attempts_witness :
    make_request (fun _ => Outcome.response 503 (0 : Nat)) = ⟨3, [1, 2], none⟩ :=
  c2_all_503_three_attempts _ (fun _ => 0) (fun _ _ => rfl)

/-- C3: an attempt that receives a status other than 200 and 503, or a
connection error, makes the loop return None at once: the trace records
exactly that one attempt, no sleep, and result None; in particular such
an outcome on the first attempt makes the whole request fail at once. -/
theorem c3_abort_immediately {β : Type} (oracle : Nat → Outcome β)
    (k fuel : Nat) :
    (badOutcome (oracle k) → requestLoop oracle k (fuel + 1) = ⟨1, [], none⟩) ∧
    (badOutcome (oracle 0) → make_request oracle = ⟨1, [], none⟩) := by
  have loopstep : ∀ j m, badOutcome (oracle j) →
      requestLoop oracle j (m + 1) = ⟨1, [], none⟩ := by
    intro j m h
    cases ho : oracle j with
    | response code body =>
        rw [ho] at h
        obtain ⟨h200, h503⟩ := h
        simp [requestLoop, ho, h200, h503]
    | timeout => rw [ho] at h; exact absurd h (by simp [badOutcome])
    | connError => simp [requestLoop, ho]
    | otherError => rw [ho] at h; exact absurd h (by simp [badOutcome])
  exact ⟨loopstep k fuel, fun h => loopstep 0 2 h⟩

/-- Witness for C3 with a concrete oracle answering 404 on every
attempt. -/
theorem c3_abort_immediately_witness :
    requestLoop (fun _ => Outcome.response 404 (0 : Nat)) 0 3 = ⟨1, [], none⟩ ∧
      make_request (fun _ => Outcome.response 404 (0 : Nat)) = ⟨1, [], none⟩ := by
  have h := c3_abort_immediately (fun _ => Outcome.response 404 (0 : Nat)) 0 2
  exact ⟨h.1 (by simp [badOutcome]), h.2 (by simp [badOutcome])⟩

/-- C6: the endpoint of the request a task produces is a function of
the task type alone: analyze and swot go to /api/analyze, market_entry
to /api/market-entry, competitive to /api/competitive, and any other
type produces no request. -/
theorem c6_endpoint_by_type (c : Client) (task : Task) :
    (execute_task c task).map Request.endpoint =
      (if task.type = "analyze" ∨ task.type = "swot" then
        some (c.service_url ++ "/api/analyze")
      else if task.type = "market_entry" then
        some (c.service_url ++ "/api/market-entry")
      else if task.type = "competitive" then
        some (c.service_url ++ "/api/competitive")
      else none) := by
  unfold execute_task
  split_ifs <;>
    simp [analyze_company, analyze_market_entry, analyze_competitive]

/-- Witness for C6 on a concrete client and task. -/
theorem c6_endpoint_by_type_witness :
    (execute_task (init_client "http://svc" 30 "u1") sampleTask).map
        Request.endpoint = some "http://svc/api/analyze" := by
  rw [c6_endpoint_by_type (init_client "http://svc" 30 "u1") sampleTask]
  decide

/-- C9: the session identifier is the token fixed at construction, and
it appears as the sessionId field of the body of every outbound
analysis request the client builds. -/
theorem c9_session_id_stable (url : String) (n : Nat) (uuid : String) :
    (init_client url n uuid).session_id = uuid ∧
    (∀ comp fw d, ("sessionId", JVal.jstr uuid) ∈
        (analyze_company (init_client url n uuid) comp fw d).body) ∧
    (∀ ind reg comp, ("sessionId", JVal.jstr uuid) ∈
        (analyze_market_entry (init_client url n uuid) ind reg comp).body) ∧
    (∀ comp comps, ("sessionId", JVal.jstr uuid) ∈
        (analyze_competitive (init_client url n uuid) comp comps).body) ∧
    (∀ task req, execute_task (init_client url n uuid) task = some req →
        ("sessionId", JVal.jstr uuid) ∈ req.body) := by
  refine ⟨rfl, ?_, ?_, ?_, ?_⟩
  · intro comp fw d
    simp [analyze_company, init_client]
  · intro ind reg comp
    simp [analyze_market_entry, init_client]
  · intro comp comps
    simp [analyze_competitive, init_client]
  · intro task req h
    unfold execute_task at h
    split_ifs at h <;> cases h <;>
      simp [analyze_company, analyze_market_entry, analyze_competitive,
        init_client]

/-- Witness for C9: the sessionId field of a concrete request built by
a freshly constructed client. -/
theorem c9_session_id_stable_witness :
    ("sessionId", JVal.jstr "u1") ∈
      (analyze_company (init_client "http://localhost:3001" 30 "u1")
        (some "Tesla") "swot" "standard").body :=
  (c9_session_id_stable "http://localhost:3001" 30 "u1").2.1
    (some "Tesla") "swot" "standard"

/-- A SWOT category block ignores everything past the first five
items. -/
theorem categoryLines_take (title : String) (items : Option (List String)) :
    categoryLines title (items.map (fun l => l.take 5)) =
      categoryLines title items := by
  cases items <;> simp [categoryLines, List.take_take]

/-- The recommendation block ignores everything past the first five
items. -/
theorem recommendationLines_take (recs : List String) :
    recommendationLines (recs.take 5) = recommendationLines recs := by
  cases recs <;> simp [recommendationLines, List.take_take]

/-- C7: the formatter renders at most the first five recommendations
and at most the first five items of each SWOT category: its output does
not change when the result is truncated to those prefixes, and a result
with more than five recommendations renders a header plus exactly five
numbered lines. -/
theorem c7_truncates_to_five (res : AnalysisResult) (task : Task)
    (today : String) :
    format_response_lines res task today =
      format_response_lines (truncate_result res) task today ∧
    (5 < res.recommendations.length →
      (recommendationLines res.recommendations).length = 6) := by
  constructor
  · obtain ⟨fw, an, recs⟩ := res
    cases an with
    | none =>
        simp [format_response_lines, truncate_result, recommendationLines_take]
    | some a =>
        simp [format_response_lines, truncate_result, recommendationLines_take,
          categoryLines_take]
  · intro hl
    have hne : ¬ res.recommendations.isEmpty = true := by
      cases hcase : res.recommendations with
      | nil => rw [hcase] at hl; simp at hl
      | cons x t => simp [hcase]
    simp [recommendationLines, hne, List.length_take]
    omega

/-- Witness for C7 on a concrete result with six recommendations. -/
theorem c7_truncates_to_five_witness :
    format_response_lines sampleResult sampleTask "2026-10-12" =
        format_response_lines (truncate_result sampleResult) sampleTask
          "2026-10-12" ∧
      (recommendationLines sampleResult.recommendations).length = 6 :=
  ⟨(c7_truncates_to_five sampleResult sampleTask "2026-10-12").1,
   (c7_truncates_to_five sampleResult sampleTask "2026-10-12").2 (by decide)⟩

/-- `searchFirst` fails when every pattern in the list fails. -/
theorem searchFirst_eq_none (os : ReOracle) (pats : List String) (text : String)
    (h : ∀ p ∈ pats, os.search p text = none) :
    searchFirst os pats text = none := by
  induction pats with
  | nil => rfl
  | cons p rest ih =>
      have hp := h p (by simp)
      simp [searchFirst, hp]
      exact ih (fun q hq => h q (by simp [hq]))

/-- C8: when no extraction pattern matches the text, the entity
extractors return the fixed fallbacks: industry technology, region
Global, depth standard. -/
theorem c8_default_fallbacks (os : ReOracle) (text : String) :
    ((∀ p ∈ industry_patterns, os.search p text = none) →
      extract_industry os text = "technology") ∧
    ((∀ r ∈ regions, pyContains (pyLowerStr text) r = false) →
      extract_region text = "Global") ∧
    ((∀ k ∈ ["comprehensive", "detailed", "thorough", "quick", "brief",
        "summary"], pyContains (pyLowerStr text) k = false) →
      extract_depth text = "standard") := by
  refine ⟨?_, ?_, ?_⟩
  · intro h
    simp [extract_industry, searchFirst_eq_none os industry_patterns text h]
  · intro h
    have hf : regions.find? (fun r => pyContains (pyLowerStr text) r) = none := by
      rw [List.find?_eq_none]
      intro r hr
      simp [h r hr]
    simp [extract_region, hf]
  · intro h
    have h1 := h "comprehensive" (by simp)
    have h2 := h "detailed" (by simp)
    have h3 := h "thorough" (by simp)
    have h4 := h "quick" (by simp)
    have h5 := h "brief" (by simp)
    have h6 := h "summary" (by simp)
    simp [extract_depth, h1, h2, h3, h4, h5, h6]

/-- Witness for C8 on a concrete text matching nothing, with the
all-failing oracle. -/
theorem c8_default_fallbacks_witness :
    extract_industry osNone "x" = "technology" ∧
      extract_region "x" = "Global" ∧ extract_depth "x" = "standard" := by
  obtain ⟨h1, h2, h3⟩ := c8_default_fallbacks osNone "x"
  exact ⟨h1 (fun p _ => rfl), h2 (by decide), h3 (by decide)⟩

end StrategyAgent
